import Mathlib

/-!
Shallow embedding of the dependency-extraction core of Retro-data-structures:
`retro_data_structures/formats/dependency_cheating.py` and
`retro_data_structures/formats/ancs.py`.

Modelling conventions:
- byte buffers are `List Nat` (one entry per byte);
- a `construct` parser is a cursor function `List Nat → Nat → Option (α × Nat)`
  returning the parsed value and the new cursor position, `none` on any
  construct failure (constant mismatch, truncated buffer);
- a Python generator body that may raise is a `GenResult`: the finite prefix
  of records it yielded before finishing, plus `none` (normal completion) or
  the exception it raised;
- the external asset catalog (`asset_manager.py`, outside the provided
  sources) is modelled from the spec as an abstract `AssetManager`.
-/

/-- Target game variant (`game_check.Game`). -/
inductive Game where
  | PRIME
  | ECHOES
  | CORRUPTION
deriving DecidableEq

/-- Modelled from the spec: the identifier-width policy (`Game.uses_asset_id_32`,
not under the provided sources) — 4-byte IDs for the Prime 1/2 family, 8-byte
IDs for the later family. -/
def Game.uses_asset_id_32 : Game → Bool
  | .PRIME => true
  | .ECHOES => true
  | .CORRUPTION => false

/-- Numeric rank of the enum, for the `target_game >= Game.CORRUPTION` test. -/
def Game.rank : Game → Nat
  | .PRIME => 1
  | .ECHOES => 2
  | .CORRUPTION => 3

/-- Modelled from the spec: `game_check.is_prime1` (not under the provided
sources) — the decode targets the first game variant. -/
def is_prime1 (g : Game) : Bool := decide (g = Game.PRIME)

/-- Modelled from the spec: `game_check.is_prime2` (not under the provided
sources) — the decode targets the second game variant. -/
def is_prime2 (g : Game) : Bool := decide (g = Game.ECHOES)

/-- A dependency record: `(type_tag, asset_id)`. -/
abbrev Dependency := String × Nat

/-- The exceptions that can cross the boundaries of the embedded functions. -/
inductive DecodeError where
  /-- any `construct` parse failure: bad magic constant, truncated buffer, bad length -/
  | constructError
  /-- `UnknownAssetId` raised by the catalog -/
  | unknownAssetId
  /-- `UnableToCheatError` raised by a structured decoder -/
  | unableToCheat
  /-- Python `IndexError` from list subscripting -/
  | indexError
deriving DecidableEq

/-- Modelled from the spec: the external asset catalog (`asset_manager.py`, not
under the provided sources). `catalog id is_mlvl` is the lazy sequence of
dependency records the catalog reports for `id`, or `none` when the id is
unknown to it. -/
structure AssetManager where
  target_game : Game
  catalog : Nat → Bool → Option (List Dependency)

/-- Modelled from the spec: `AssetManager.get_dependencies_for_asset`. A `none`
id (a decoder forwarding an absent optional field) is not a plausible id and
yields nothing; an unknown id raises `UnknownAssetId` unless `not_exist_ok` is
set, in which case it is treated as empty. -/
def AssetManager.get_dependencies_for_asset (am : AssetManager) (oid : Option Nat)
    (is_mlvl : Bool) (not_exist_ok : Bool) : Except DecodeError (List Dependency) :=
  match oid with
  | none => .ok []
  | some i =>
    match am.catalog i is_mlvl with
    | some deps => .ok deps
    | none => if not_exist_ok then .ok [] else .error .unknownAssetId

/-- Outcome of running a Python generator to exhaustion: the records it yielded,
and the exception (if any) that ended it early. -/
structure GenResult where
  yielded : List Dependency
  error : Option DecodeError
deriving DecidableEq

/-- A generator body that yields `l` and returns normally. -/
def GenResult.ofList (l : List Dependency) : GenResult := ⟨l, none⟩

/-- Sequencing of two generator bodies: if the first raises, the second never
runs, but records already yielded by the first were already delivered. -/
def GenResult.seq (a : GenResult) (b : Unit → GenResult) : GenResult :=
  match a.error with
  | some _ => a
  | none => ⟨a.yielded ++ (b ()).yielded, (b ()).error⟩

/-- A `for` loop over `xs` whose body is the generator `f`; stops at the first
raised exception, keeping everything yielded before it. -/
def genFor : List α → (α → GenResult) → GenResult
  | [], _ => ⟨[], none⟩
  | x :: xs, f => (f x).seq (fun _ => genFor xs f)

/-- Result of `yield from` on a call that either returns a list or raises. -/
def GenResult.ofExcept : Except DecodeError (List Dependency) → GenResult
  | .ok l => ⟨l, none⟩
  | .error e => ⟨[], some e⟩

/-- A raw asset as handed to the dispatch layer: type tag plus payload bytes. -/
structure RawResource where
  type : String
  data : List Nat
deriving DecidableEq

/-! ### Cursor parsers for the `construct` layouts -/

/-- A `construct` subconstruct: reads from a byte list at a cursor position,
produces a value and the new position, or fails. -/
@[reducible] def BParse (α : Type) : Type := List Nat → Nat → Option (α × Nat)

instance : Monad BParse where
  pure a := fun _ pos => some (a, pos)
  bind p f := fun d pos =>
    match p d pos with
    | some (a, pos') => f a d pos'
    | none => none

/-- The always-failing parser (a construct error). -/
def pfail : BParse α := fun _ _ => none

/-- Big-endian value of the `n` bytes of `d` starting at `pos` (caller must
know they exist). -/
def beVal (d : List Nat) (pos n : Nat) : Nat :=
  (List.range n).foldl (fun acc i => acc * 256 + d.getD (pos + i) 0) 0

/-- Read `n` bytes as a big-endian unsigned integer; fails when fewer than `n`
bytes remain (`struct.unpack_from` / construct `IntNub` behaviour). -/
def readBE (n : Nat) : BParse Nat := fun d pos =>
  if pos + n ≤ d.length then some (beVal d pos n, pos + n) else none

/-- Read `n` raw bytes (`construct.Bytes(n)`). -/
def readBytes (n : Nat) : BParse (List Nat) := fun d pos =>
  if pos + n ≤ d.length then some ((List.range n).map (fun i => d.getD (pos + i) 0), pos + n)
  else none

/-- A big-endian integer constant (`construct.Const(v, IntNub)`): parse fails
unless the stored value matches. -/
def constBE (n v : Nat) : BParse Unit := do
  let x ← readBE n
  if x = v then pure () else pfail

/-- A literal byte-string constant (`construct.Const(b"...")`). -/
def constBytes (bs : List Nat) : BParse Unit := do
  let x ← readBytes bs.length
  if x = bs then pure () else pfail

/-- Absolute stream seek (`construct.Seek(n)`); seeking past the end is legal,
later reads there fail. -/
def seekAbs (n : Nat) : BParse Unit := fun _ _ => some ((), n)

/-- Relative stream seek (`construct.Seek(n, 1)`). -/
def seekRel (n : Nat) : BParse Unit := fun _ pos => some ((), pos + n)

/-- Current stream position (`construct.Tell`-like, used to model `DataSection`). -/
def tellPos : BParse Nat := fun _ pos => some (pos, pos)

/-- Fuel-driven body of the null-terminated-string reader. -/
def cstrAux : Nat → List Nat → Nat → Option (List Nat × Nat)
  | 0, _, _ => none
  | fuel + 1, d, pos =>
    match d.get? pos with
    | none => none
    | some 0 => some ([], pos + 1)
    | some b => (cstrAux fuel d (pos + 1)).map (fun r => (b :: r.1, r.2))

/-- Null-terminated string (`common_types.String`, a `CString`): the bytes up
to the first zero byte; fails at end of buffer with no terminator. -/
def cstring : BParse (List Nat) := fun d pos => cstrAux (d.length + 1 - pos) d pos

/-- Parse exactly `n` copies of `p` (`construct.Array`). -/
def parseArrayN (p : BParse α) : Nat → BParse (List α)
  | 0 => pure []
  | n + 1 => do
    let x ← p
    let xs ← parseArrayN p n
    pure (x :: xs)

/-- A 32-bit count followed by that many elements
(`construct.PrefixedArray(Int32ub, p)`). -/
def prefixedArray32 (p : BParse α) : BParse (List α) := do
  let n ← readBE 4
  parseArrayN p n

/-- Conditional subconstruct (`construct.If(cond, p)` / `WithVersion` /
`BeforeVersion`): parses `p` when `cond` holds, otherwise yields `none`
without consuming bytes. -/
def pIf (cond : Bool) (p : BParse α) : BParse (Option α) := fun d pos =>
  if cond then (p d pos).map (fun r => (some r.1, r.2)) else some (none, pos)

/-- Run a parser on a whole buffer from position 0, keeping only the value
(`subcon.parse(data)`). -/
def runBParse (p : BParse α) (d : List Nat) : Option α := (p d 0).map (·.1)

/-! ### dependency_cheating.py -/

/-- Hooks for repository modules the sources import but which are not provided
(`formats/hier.py`, `formats/meta_animation.py`, `formats/meta_transition.py`,
`formats/evnt.py`, `formats/pas_database.py`). Each is kept abstract and all
the theorems quantify over them; parsed meta-animation, meta-transition and
EVNT values are opaque tokens (`Nat`). -/
structure ExternalModules where
  /-- `Hier.parse(asset.data, ...)` followed by `hier.dependencies_for(is_mlvl)` -/
  hier_dependencies_for : List Nat → AssetManager → Bool → GenResult
  /-- subconstruct `MetaAnimation_AssetId32` -/
  parseMetaAnimation : BParse Nat
  /-- subconstruct `MetaTransition_v1` -/
  parseMetaTransition : BParse Nat
  /-- subconstruct `EVNT` -/
  parseEvnt : BParse Nat
  /-- subconstruct `PASDatabase` -/
  parsePasDatabase : BParse Unit
  /-- `meta_animation.dependencies_for(meta, asset_manager)` -/
  meta_animation_dependencies_for : Nat → AssetManager → GenResult
  /-- `evnt.dependencies_for(event, asset_manager)` -/
  evnt_dependencies_for : Nat → AssetManager → GenResult

/-- Offsets probed by the heuristic scanner: `range(len(stream) - asset_id_size)`. -/
def cheat_probes (stream_len asset_id_size : Nat) : List Nat :=
  List.range (stream_len - asset_id_size)

/-- Heuristic fallback scanner `_cheat`: probe every offset in `cheat_probes`,
read the window as a big-endian id and ask the catalog (with
`not_exist_ok=True`, so no probe can raise). -/
def _cheat (stream : List Nat) (am : AssetManager) (is_mlvl : Bool) : List Dependency :=
  let asset_id_size := if am.target_game.uses_asset_id_32 then 4 else 8
  (cheat_probes stream.length asset_id_size).flatMap (fun i =>
    ((am.get_dependencies_for_asset (some (beVal stream i asset_id_size)) is_mlvl true).toOption.getD []))

/-- Layout `_csng`: `Const(2, Int32ub)`, `Seek(0xC)`, `agsc_id : Int32ub`. -/
def _csng : BParse Nat := do
  constBE 4 2
  seekAbs 0xC
  readBE 4

/-- Decoder `csng_dependencies`. (The source passes the resource object itself
to `_csng.parse`; the payload bytes are what the parse consumes.) -/
def csng_dependencies (asset : RawResource) (am : AssetManager) (is_mlvl : Bool) : GenResult :=
  match runBParse _csng asset.data with
  | none => ⟨[], some .constructError⟩
  | some agsc_id => .ofExcept (am.get_dependencies_for_asset (some agsc_id) is_mlvl false)

/-- Decoder `dumb_dependencies`: parse the payload as a `Hier` and walk it. -/
def dumb_dependencies (ext : ExternalModules) (asset : RawResource) (am : AssetManager)
    (is_mlvl : Bool) : GenResult :=
  ext.hier_dependencies_for asset.data am is_mlvl

/-- Layout `_frme`: an `Int32ub`, then `deps : PrefixedArray(Int32ub, Int32ub)`. -/
def _frme : BParse (List Nat) := do
  let _ ← readBE 4
  prefixedArray32 (readBE 4)

/-- Body of the FRME loop: resolve one declared dep through the catalog,
converting an `UnknownAssetId` into `UnableToCheatError`. -/
def frme_dep_step (am : AssetManager) (is_mlvl : Bool) (dep : Nat) : GenResult :=
  match am.get_dependencies_for_asset (some dep) is_mlvl false with
  | .ok l => ⟨l, none⟩
  | .error .unknownAssetId => ⟨[], some .unableToCheat⟩
  | .error e => ⟨[], some e⟩

/-- Decoder `frme_dependencies`: each declared dep is resolved through the
catalog; an `UnknownAssetId` is converted into `UnableToCheatError`. -/
def frme_dependencies (asset : RawResource) (am : AssetManager) (is_mlvl : Bool) : GenResult :=
  match runBParse _frme asset.data with
  | none => ⟨[], some .constructError⟩
  | some deps => genFor deps (frme_dep_step am is_mlvl)

/-- One `(String, Seek(0x4, 1))` element of the FSM2 name lists. -/
def fsm2NamePair : BParse Unit := do
  let _ ← cstring
  seekRel 0x4

/-- One entry of the FSM2 `states` / `unk2` arrays. -/
def fsm2StateEntry (version : Nat) : BParse Unit := do
  let _ ← cstring
  let _ ← pIf (decide (2 ≤ version)) (seekRel 0x10)
  let _ ← prefixedArray32 fsm2NamePair
  pure ()

/-- One entry of the FSM2 `unk1` array. -/
def fsm2Unk1Entry (version : Nat) : BParse Unit := do
  let _ ← cstring
  let _ ← pIf (decide (2 ≤ version)) (seekRel 0x10)
  seekRel 0x4
  let _ ← prefixedArray32 fsm2NamePair
  seekRel 0x1

/-- One entry of the FSM2 `unk3` array: a name, optional seek, a name list and
the trailing `dep : Int32ub`. -/
structure Fsm2Unk3 where
  str : List Nat
  dep : Nat
deriving DecidableEq

/-- Parser for one `unk3` entry. -/
def fsm2Unk3Entry (version : Nat) : BParse Fsm2Unk3 := do
  let s ← cstring
  let _ ← pIf (decide (2 ≤ version)) (seekRel 0x10)
  let _ ← prefixedArray32 fsm2NamePair
  let dep ← readBE 4
  pure ⟨s, dep⟩

/-- Decoded FSM2 value (only `unk3` carries dependency ids). -/
structure Fsm2 where
  version : Nat
  states : List Unit
  unk1 : List Unit
  unk2 : List Unit
  unk3 : List Fsm2Unk3
deriving DecidableEq

/-- Layout `_fsm2`. -/
def _fsm2 : BParse Fsm2 := do
  constBytes [0x46, 0x53, 0x4D, 0x32]
  let version ← readBE 4
  let num_states ← readBE 4
  let num_unk1 ← readBE 4
  let num_unk2 ← readBE 4
  let num_unk3 ← readBE 4
  let states ← parseArrayN (fsm2StateEntry version) num_states
  let unk1 ← parseArrayN (fsm2Unk1Entry version) num_unk1
  let unk2 ← parseArrayN (fsm2StateEntry version) num_unk2
  let unk3 ← parseArrayN (fsm2Unk3Entry version) num_unk3
  pure ⟨version, states, unk1, unk2, unk3⟩

/-- Decoder `fsm2_dependencies`. -/
def fsm2_dependencies (asset : RawResource) (am : AssetManager) (is_mlvl : Bool) : GenResult :=
  match runBParse _fsm2 asset.data with
  | none => ⟨[], some .constructError⟩
  | some f => genFor f.unk3 (fun u =>
      .ofExcept (am.get_dependencies_for_asset (some u.dep) is_mlvl false))

/-- One HINT location record. -/
structure HintLocation where
  mlvl : Nat
  mrea : Nat
  index : Nat
  map_text_strg : Nat
deriving DecidableEq

/-- One HINT entry (float fields kept as their raw 32-bit big-endian value). -/
structure HintEntry where
  name : List Nat
  immediate_time : Nat
  normal_time : Nat
  popup_strg : Nat
  text_time : Nat
  locations : List HintLocation
deriving DecidableEq

/-- Decoded HINT value. -/
structure Hint where
  version : Nat
  hints : List HintEntry
deriving DecidableEq

/-- Parser for one HINT location. -/
def hintLocationP : BParse HintLocation := do
  let mlvl ← readBE 4
  let mrea ← readBE 4
  let idx ← readBE 4
  let map_text ← readBE 4
  pure ⟨mlvl, mrea, idx, map_text⟩

/-- Parser for one HINT entry. -/
def hintEntryP : BParse HintEntry := do
  let name ← cstring
  let it ← readBE 4
  let nt ← readBE 4
  let popup ← readBE 4
  let tt ← readBE 4
  let locations ← prefixedArray32 hintLocationP
  pure ⟨name, it, nt, popup, tt, locations⟩

/-- Layout `_hint`: `Const(0x00BADBAD, Int32ub)`, a version, a prefixed array
of hints. -/
def _hint : BParse Hint := do
  constBE 4 0x00BADBAD
  let version ← readBE 4
  let hints ← prefixedArray32 hintEntryP
  pure ⟨version, hints⟩

/-- Decoder `hint_dependencies`: popup and map-text strings always go through
the catalog; the raw `("MLVL", mlvl)` / `("MREA", mrea)` pairs are yielded
only when `is_mlvl` is false. -/
def hint_dependencies (asset : RawResource) (am : AssetManager) (is_mlvl : Bool) : GenResult :=
  match runBParse _hint asset.data with
  | none => ⟨[], some .constructError⟩
  | some hint => genFor hint.hints (fun h =>
      (GenResult.ofExcept (am.get_dependencies_for_asset (some h.popup_strg) is_mlvl false)).seq
        (fun _ => genFor h.locations (fun loc =>
          (GenResult.ofExcept
              (am.get_dependencies_for_asset (some loc.map_text_strg) is_mlvl false)).seq
            (fun _ =>
              if is_mlvl then ⟨[], none⟩
              else ⟨[("MLVL", loc.mlvl), ("MREA", loc.mrea)], none⟩))))

/-- Layout `_rule`: `Pointer(0x5, Int32ub)`. -/
def _rule : BParse Nat := do
  seekAbs 0x5
  readBE 4

/-- Decoder `rule_dependencies`. -/
def rule_dependencies (asset : RawResource) (am : AssetManager) (is_mlvl : Bool) : GenResult :=
  match runBParse _rule asset.data with
  | none => ⟨[], some .constructError⟩
  | some dep => .ofExcept (am.get_dependencies_for_asset (some dep) is_mlvl false)

/-- Layout `_font`: `Seek(0x22)`, a `String`, then `txtr : Int32ub`. -/
def _font : BParse Nat := do
  seekAbs 0x22
  let _ ← cstring
  readBE 4

/-- Decoder `font_dependencies`. -/
def font_dependencies (asset : RawResource) (am : AssetManager) (is_mlvl : Bool) : GenResult :=
  match runBParse _font asset.data with
  | none => ⟨[], some .constructError⟩
  | some dep => .ofExcept (am.get_dependencies_for_asset (some dep) is_mlvl false)

/-- Modelled from the spec: `construct_extensions.alignment.AlignTo` (not under
the provided sources) — skip forward to the next multiple of `m`. -/
def alignTo (m : Nat) : BParse Unit := fun _ pos => some ((), pos + (m - pos % m) % m)

/-- Modelled from the spec: `data_section.DataSection` (not under the provided
sources) — parse the subconstruct at the current position, then skip to the end
of the declared section size. -/
def dataSection (size : Nat) (p : BParse α) : BParse α := do
  let start ← tellPos
  let x ← p
  seekAbs (start + size)
  pure x

/-- The CMDL material sets: one `DataSection` per index, each holding a
prefixed array of `AssetId32`, sized by `data_section_sizes[index]`. -/
def parseMatSets (sizes : List Nat) : List Nat → BParse (List (List Nat))
  | [] => pure []
  | i :: rest =>
    match sizes.get? i with
    | none => pfail
    | some sz => do
      let s ← dataSection sz (prefixedArray32 (readBE 4))
      let others ← parseMatSets sizes rest
      pure (s :: others)

/-- Layout `_cmdl`: a 36-byte header, section counts, section sizes, alignment
to 32, then the material sets. -/
def _cmdl : BParse (List (List Nat)) := do
  let _ ← readBytes 36
  let data_section_count ← readBE 4
  let material_set_count ← readBE 4
  let data_section_sizes ← parseArrayN (readBE 4) data_section_count
  alignTo 32
  parseMatSets data_section_sizes (List.range material_set_count)

/-- Decoder `cmdl_dependencies`: refuses (raises `UnableToCheatError`) for the
Corruption-or-later family, otherwise resolves every material-set id. -/
def cmdl_dependencies (asset : RawResource) (am : AssetManager) (is_mlvl : Bool) : GenResult :=
  if Game.CORRUPTION.rank ≤ am.target_game.rank then ⟨[], some .unableToCheat⟩
  else
    match runBParse _cmdl asset.data with
    | none => ⟨[], some .constructError⟩
    | some sets => genFor sets (fun ms => genFor ms (fun txtr =>
        .ofExcept (am.get_dependencies_for_asset (some txtr) is_mlvl false)))

/-- A structured decoder as stored in the registry. -/
abbrev Decoder := RawResource → AssetManager → Bool → GenResult

/-- The decoder registry `_FORMATS_TO_CHEAT`. -/
def _FORMATS_TO_CHEAT (ext : ExternalModules) : List (String × Decoder) :=
  [("CSNG", csng_dependencies),
   ("DUMB", dumb_dependencies ext),
   ("FRME", frme_dependencies),
   ("FSM2", fsm2_dependencies),
   ("HINT", hint_dependencies),
   ("RULE", rule_dependencies),
   ("FONT", font_dependencies),
   ("CMDL", cmdl_dependencies)]

/-- Registry membership test `should_cheat_asset`. -/
def should_cheat_asset (ext : ExternalModules) (asset_type : String) : Bool :=
  ((_FORMATS_TO_CHEAT ext).lookup asset_type).isSome

/-- Dispatch layer `get_cheated_dependencies`: run the registered decoder if
any; only an `UnableToCheatError` is caught and turns into running the
heuristic scanner (after whatever the decoder already yielded); any other
exception propagates; unregistered types go straight to the scanner. -/
def get_cheated_dependencies (ext : ExternalModules) (asset : RawResource)
    (am : AssetManager) (is_mlvl : Bool) : GenResult :=
  match (_FORMATS_TO_CHEAT ext).lookup asset.type with
  | some f =>
    if (f asset am is_mlvl).error = some DecodeError.unableToCheat then
      ⟨(f asset am is_mlvl).yielded ++ _cheat asset.data am is_mlvl, none⟩
    else f asset am is_mlvl
  | none => ⟨_cheat asset.data am is_mlvl, none⟩

/-- One `AnimationName` record (`unknown` string exists only before version 10). -/
structure AnimationName where
  animation_id : Nat
  unknown : Option (List Nat)
  name : List Nat
deriving DecidableEq

/-- `ParticleResourceData`: four particle-id lists, the in-between `unknown`
gated at version 6 and `spawn_particles` at version 10. -/
structure ParticleResourceData where
  generic_particles : List Nat
  swoosh_particles : List Nat
  unknown : Option Nat
  electric_particles : List Nat
  spawn_particles : Option (List Nat)
deriving DecidableEq

/-- One `AnimationAABB` record (box kept as its raw 24 bytes). -/
structure AnimationAABB where
  name : List Nat
  bounding_box : List Nat
deriving DecidableEq

/-- An `ObjectTag_32`: a 4-byte type tag and a 32-bit asset id. -/
structure ObjectTag32 where
  tag : List Nat
  id : Nat
deriving DecidableEq

/-- One `EffectComponent` (bone name only on Prime 1, bone id only on Prime 2). -/
structure EffectComponent where
  name : List Nat
  particle : ObjectTag32
  bone_name : Option (List Nat)
  bone_id : Option Nat
  scale : Nat
  parented_mode : Nat
  flags : Nat
deriving DecidableEq

/-- One `Effect`. -/
structure Effect where
  name : List Nat
  components : List EffectComponent
deriving DecidableEq

/-- One `IndexedAnimationAABB` record. -/
structure IndexedAnimationAABB where
  id : Nat
  bounding_box : List Nat
deriving DecidableEq

/-- A decoded `Character` record; every `Option` field is a version-gated field
of the layout (absent is `none`, never a defaulted value). -/
structure Character where
  id : Nat
  version : Nat
  name : List Nat
  model_id : Nat
  skin_id : Nat
  skeleton_id : Nat
  animation_names : List AnimationName
  pas_database : Unit
  particle_resource_data : ParticleResourceData
  unknown_1 : Nat
  unknown_2 : Option Nat
  animation_aabb_array : Option (List AnimationAABB)
  effect_array : Option (List Effect)
  frozen_model : Option Nat
  frozen_skin : Option Nat
  animation_id_map : Option (List Nat)
  spatial_primitives_id : Option Nat
  unknown_3 : Option Nat
  indexed_animation_aabb_array : Option (List IndexedAnimationAABB)
deriving DecidableEq

/-- The `CharacterSet`. -/
structure CharacterSet where
  characters : List Character
deriving DecidableEq

/-- One `Animation` (its meta-animation tree is an opaque token). -/
structure Animation where
  name : List Nat
  meta : Nat
deriving DecidableEq

/-- One `Transition` (the `MetaTransition_v1` payload is an opaque token). -/
structure Transition where
  unknown : Nat
  animation_id_a : Nat
  animation_id_b : Nat
  transition : Nat
deriving DecidableEq

/-- One `AdditiveAnimation` (floats kept as raw 32-bit values). -/
structure AdditiveAnimation where
  animation_id : Nat
  fade_in_time : Nat
  fade_out_time : Nat
deriving DecidableEq

/-- The additive-animation block gated on `table_count >= 2`. -/
structure AdditiveBlock where
  additive_animations : List AdditiveAnimation
  default_fade_in_time : Nat
  default_fade_out_time : Nat
deriving DecidableEq

/-- One `HalfTransitions` record. -/
structure HalfTransition where
  animation_id : Nat
  transition : Nat
deriving DecidableEq

/-- One `AnimationResourcePair`: an ANIM id and an EVNT id. -/
structure AnimationResourcePair where
  anim_id : Nat
  event_id : Nat
deriving DecidableEq

/-- A decoded `AnimationSet`; the four trailing `Option` fields are the
conditionally-present blocks. -/
structure AnimationSet where
  table_count : Nat
  animations : List Animation
  transitions : List Transition
  default_transition : Nat
  additive : Option AdditiveBlock
  half_transitions : Option (List HalfTransition)
  animation_resources : Option (List AnimationResourcePair)
  event_sets : Option (List Nat)
deriving DecidableEq

/-- A decoded `ANCS` container. -/
structure ANCS where
  character_set : CharacterSet
  animation_set : AnimationSet
deriving DecidableEq

/-- Modelled from the spec: `common_types.AABox` (not under the provided
sources) — six 32-bit floats, kept as their raw 24 bytes. -/
def parseAABox : BParse (List Nat) := readBytes 24

/-- Modelled from the spec: `common_types.ObjectTag_32` (not under the provided
sources) — a 4-byte tag and a 32-bit id. -/
def parseObjectTag32 : BParse ObjectTag32 := do
  let tag ← readBytes 4
  let id ← readBE 4
  pure ⟨tag, id⟩

/-- Parser for `AnimationName` at a given surrounding format version. -/
def parseAnimationName (version : Nat) : BParse AnimationName := do
  let animation_id ← readBE 4
  let unknown ← pIf (decide (version < 10)) cstring
  let name ← cstring
  pure ⟨animation_id, unknown, name⟩

/-- Parser for `ParticleResourceData` at a given surrounding format version. -/
def parseParticleResourceData (version : Nat) : BParse ParticleResourceData := do
  let generic ← prefixedArray32 (readBE 4)
  let swoosh ← prefixedArray32 (readBE 4)
  let unknown ← pIf (decide (6 ≤ version)) (readBE 4)
  let electric ← prefixedArray32 (readBE 4)
  let spawn ← pIf (decide (10 ≤ version)) (prefixedArray32 (readBE 4))
  pure ⟨generic, swoosh, unknown, electric, spawn⟩

/-- Parser for `AnimationAABB`. -/
def parseAnimationAABB : BParse AnimationAABB := do
  let name ← cstring
  let box ← parseAABox
  pure ⟨name, box⟩

/-- Parser for `EffectComponent` (game-variant-conditional bone fields). -/
def parseEffectComponent (game : Game) : BParse EffectComponent := do
  let name ← cstring
  let particle ← parseObjectTag32
  let bone_name ← pIf (is_prime1 game) cstring
  let bone_id ← pIf (is_prime2 game) (readBE 4)
  let scale ← readBE 4
  let parented_mode ← readBE 4
  let flags ← readBE 4
  pure ⟨name, particle, bone_name, bone_id, scale, parented_mode, flags⟩

/-- Parser for `Effect`. -/
def parseEffect (game : Game) : BParse Effect := do
  let name ← cstring
  let components ← prefixedArray32 (parseEffectComponent game)
  pure ⟨name, components⟩

/-- Parser for `IndexedAnimationAABB`. -/
def parseIndexedAnimationAABB : BParse IndexedAnimationAABB := do
  let id ← readBE 4
  let box ← parseAABox
  pure ⟨id, box⟩

/-- Parser for one `Character` record: the version field read up front gates
every `WithVersion` field below it (thresholds 2, 4, 5, 10; plus 6 and 10
inside `ParticleResourceData`). -/
def parseCharacter (ext : ExternalModules) (game : Game) : BParse Character := do
  let id ← readBE 4
  let version ← readBE 2
  let name ← cstring
  let model_id ← readBE 4
  let skin_id ← readBE 4
  let skeleton_id ← readBE 4
  let animation_names ← prefixedArray32 (parseAnimationName version)
  let pas ← ext.parsePasDatabase
  let prd ← parseParticleResourceData version
  let unknown_1 ← readBE 4
  let unknown_2 ← pIf (decide (10 ≤ version)) (readBE 4)
  let animation_aabb_array ← pIf (decide (2 ≤ version)) (prefixedArray32 parseAnimationAABB)
  let effect_array ← pIf (decide (2 ≤ version)) (prefixedArray32 (parseEffect game))
  let frozen_model ← pIf (decide (4 ≤ version)) (readBE 4)
  let frozen_skin ← pIf (decide (4 ≤ version)) (readBE 4)
  let animation_id_map ← pIf (decide (5 ≤ version)) (prefixedArray32 (readBE 4))
  let spatial_primitives_id ← pIf (decide (10 ≤ version)) (readBE 4)
  let unknown_3 ← pIf (decide (10 ≤ version)) (readBE 1)
  let indexed ← pIf (decide (10 ≤ version)) (prefixedArray32 parseIndexedAnimationAABB)
  pure ⟨id, version, name, model_id, skin_id, skeleton_id, animation_names, pas, prd,
        unknown_1, unknown_2, animation_aabb_array, effect_array, frozen_model, frozen_skin,
        animation_id_map, spatial_primitives_id, unknown_3, indexed⟩

/-- Parser for `CharacterSet` (a `Const(1, Int16ub)` then the characters). -/
def parseCharacterSet (ext : ExternalModules) (game : Game) : BParse CharacterSet := do
  constBE 2 1
  let characters ← prefixedArray32 (parseCharacter ext game)
  pure ⟨characters⟩

/-- Parser for `Animation`. -/
def parseAnimation (ext : ExternalModules) : BParse Animation := do
  let name ← cstring
  let meta ← ext.parseMetaAnimation
  pure ⟨name, meta⟩

/-- Parser for `Transition`. -/
def parseTransition (ext : ExternalModules) : BParse Transition := do
  let unknown ← readBE 4
  let a ← readBE 4
  let b ← readBE 4
  let t ← ext.parseMetaTransition
  pure ⟨unknown, a, b, t⟩

/-- Parser for `AdditiveAnimation`. -/
def parseAdditiveAnimation : BParse AdditiveAnimation := do
  let id ← readBE 4
  let fin ← readBE 4
  let fout ← readBE 4
  pure ⟨id, fin, fout⟩

/-- Parser for the additive block. -/
def parseAdditiveBlock : BParse AdditiveBlock := do
  let xs ← prefixedArray32 parseAdditiveAnimation
  let fin ← readBE 4
  let fout ← readBE 4
  pure ⟨xs, fin, fout⟩

/-- Parser for `HalfTransitions`. -/
def parseHalfTransition (ext : ExternalModules) : BParse HalfTransition := do
  let id ← readBE 4
  let t ← ext.parseMetaTransition
  pure ⟨id, t⟩

/-- Parser for `AnimationResourcePair`. -/
def parseAnimationResourcePair : BParse AnimationResourcePair := do
  let a ← readBE 4
  let e ← readBE 4
  pure ⟨a, e⟩

/-- Parser for `AnimationSet`: the two table-count-gated blocks
(`table_count >= 2`, `table_count >= 3`) and the two game-variant-gated
trailing lists (`is_prime1`, `is_prime2`). -/
def parseAnimationSet (ext : ExternalModules) (game : Game) : BParse AnimationSet := do
  let table_count ← readBE 2
  let animations ← prefixedArray32 (parseAnimation ext)
  let transitions ← prefixedArray32 (parseTransition ext)
  let default_transition ← ext.parseMetaTransition
  let additive ← pIf (decide (2 ≤ table_count)) parseAdditiveBlock
  let half_transitions ← pIf (decide (3 ≤ table_count)) (prefixedArray32 (parseHalfTransition ext))
  let animation_resources ← pIf (is_prime1 game) (prefixedArray32 parseAnimationResourcePair)
  let event_sets ← pIf (is_prime2 game) (prefixedArray32 ext.parseEvnt)
  pure ⟨table_count, animations, transitions, default_transition, additive,
        half_transitions, animation_resources, event_sets⟩

/-- Parser for the whole `ANCS` container. -/
def parseANCS (ext : ExternalModules) (game : Game) : BParse ANCS := do
  constBE 2 1
  let cs ← parseCharacterSet ext game
  let aset ← parseAnimationSet ext game
  pure ⟨cs, aset⟩

/-- Resolution of one (possibly absent) id through the catalog, with the
default flags of `get_dependencies_for_asset` calls made by `ancs.py`. -/
def depsOfId (am : AssetManager) (oid : Option Nat) : GenResult :=
  .ofExcept (am.get_dependencies_for_asset oid false false)

/-- The local `_array` helper of `char_dependencies_for`: skip an absent list,
resolve every id of a present one. -/
def arrayDeps (am : AssetManager) : Option (List Nat) → GenResult
  | none => ⟨[], none⟩
  | some xs => genFor xs (fun i => depsOfId am (some i))

/-- `char_dependencies_for`: the six (possibly absent) model/skin/skeleton and
frozen/spatial ids, then the four particle-resource lists. -/
def char_dependencies_for (c : Character) (am : AssetManager) : GenResult :=
  (genFor [some c.model_id, some c.skin_id, some c.skeleton_id,
           c.frozen_model, c.frozen_skin, c.spatial_primitives_id] (depsOfId am)).seq (fun _ =>
  (arrayDeps am (some c.particle_resource_data.generic_particles)).seq (fun _ =>
  (arrayDeps am (some c.particle_resource_data.swoosh_particles)).seq (fun _ =>
  (arrayDeps am (some c.particle_resource_data.electric_particles)).seq (fun _ =>
  arrayDeps am c.particle_resource_data.spawn_particles))))

/-- `non_char_dependencies_for`: every animation's meta-animation tree, the
Prime-1-only animation-resource pairs, the Prime-2-only event sets
(`event_sets or []`). -/
def non_char_dependencies_for (ext : ExternalModules) (obj : ANCS) (am : AssetManager) : GenResult :=
  (genFor obj.animation_set.animations
      (fun a => ext.meta_animation_dependencies_for a.meta am)).seq (fun _ =>
  (match obj.animation_set.animation_resources with
   | none => (⟨[], none⟩ : GenResult)
   | some ress => genFor ress (fun r =>
       (depsOfId am (some r.anim_id)).seq (fun _ => depsOfId am (some r.event_id)))).seq (fun _ =>
  genFor (obj.animation_set.event_sets.getD [])
    (fun e => ext.evnt_dependencies_for e am)))

/-- `Ancs.dependencies_for` on the decoded container: every character, then the
shared animation-set data. -/
def ancs_dependencies_for (ext : ExternalModules) (obj : ANCS) (am : AssetManager) : GenResult :=
  (genFor obj.character_set.characters (fun c => char_dependencies_for c am)).seq (fun _ =>
    non_char_dependencies_for ext obj am)

/-- The designated player-actor character index: 5 on Prime 1, 3 otherwise. -/
def empty_suit_index (g : Game) : Nat := if g = Game.PRIME then 5 else 3

/-- `Ancs.mlvl_dependencies_for`: without the player-actor flag, everything;
with it, only `characters[empty_suit_index]` plus the shared animation-set
data (Python list indexing raises `IndexError` when the index is out of range). -/
def mlvl_dependencies_for (ext : ExternalModules) (obj : ANCS) (am : AssetManager)
    (is_player_actor : Bool) : GenResult :=
  if is_player_actor = false then ancs_dependencies_for ext obj am
  else
    match obj.character_set.characters.get? (empty_suit_index am.target_game) with
    | none => ⟨[], some .indexError⟩
    | some c => (char_dependencies_for c am).seq (fun _ => non_char_dependencies_for ext obj am)

/-- An asset manager over a finite catalog table (the `is_mlvl` flag does not
change this catalog's answers). -/
def amOf (g : Game) (tbl : List (Nat × List Dependency)) : AssetManager :=
  ⟨g, fun i _ => tbl.lookup i⟩

/-- A trivial instantiation of the abstract external modules, for concrete
evaluation. -/
def extTriv : ExternalModules where
  hier_dependencies_for := fun _ _ _ => ⟨[], none⟩
  parseMetaAnimation := pure 0
  parseMetaTransition := pure 0
  parseEvnt := readBE 4
  parsePasDatabase := pure ()
  meta_animation_dependencies_for := fun m _ => ⟨[("ANIM", m)], none⟩
  evnt_dependencies_for := fun e _ => ⟨[("EVNT", e)], none⟩

/-- A registered-type asset whose magic constant is wrong. -/
def hintBad : RawResource := ⟨"HINT", [0, 0, 0, 0]⟩

/-- A FRME asset declaring deps `[1, 2]`. -/
def frmeMergeAsset : RawResource := ⟨"FRME", [0, 0, 0, 0, 0, 0, 0, 2, 0, 0, 0, 1, 0, 0, 0, 2]⟩

/-- A catalog that knows id 1 only. -/
def amMerge : AssetManager := amOf Game.PRIME [(1, [("STRG", 100)])]

/-- A FRME asset declaring the single dep `[5]`. -/
def frmeUnknownAsset : RawResource := ⟨"FRME", [0, 0, 0, 0, 0, 0, 0, 1, 0, 0, 0, 5]⟩

/-- A catalog that knows id 256 only (a value visible to the heuristic scanner
over `frmeUnknownAsset`, but not declared by it). -/
def amRescue : AssetManager := amOf Game.PRIME [(256, [("TXTR", 256)])]

/-- An 8-byte buffer whose only catalog-valid window sits at the very last
4-byte offset, 4 = 8 - 4. -/
def streamTail : List Nat := [0, 0, 0, 0, 0, 0, 0, 7]

/-- A catalog that knows id 7 only. -/
def amTail : AssetManager := amOf Game.PRIME [(7, [("TXTR", 7)])]

/-- A 12-byte asset of an unregistered type whose bytes 4 to 7 hold a valid id. -/
def unregAsset : RawResource := ⟨"XXXX", [0, 0, 0, 0, 0, 0, 0, 9, 0, 0, 0, 0]⟩

/-- A catalog that knows id 9 only. -/
def amUnreg : AssetManager := amOf Game.PRIME [(9, [("TXTR", 9)])]

/-- Bytes of a minimal Prime 1 animation set with `table_count = 1`. -/
def asBytes1 : List Nat := [0, 1, 0, 0, 0, 0, 0, 0, 0, 0, 0, 0, 0, 0]

/-- Its decoded value: both gated blocks absent. -/
def asVal1 : AnimationSet := ⟨1, [], [], 0, none, none, some [], none⟩

/-- Bytes of a minimal Prime 1 animation set with `table_count = 3`. -/
def asBytes3 : List Nat :=
  [0, 3, 0, 0, 0, 0, 0, 0, 0, 0, 0, 0, 0, 0, 0, 0, 0, 0, 0, 0, 0, 0, 0, 0, 0, 0, 0, 0, 0, 0]

/-- Its decoded value: both gated blocks present. -/
def asVal3 : AnimationSet := ⟨3, [], [], 0, some ⟨[], 0, 0⟩, some [], some [], none⟩

/-- Bytes of a minimal Prime 2 animation set with `table_count = 1`. -/
def asBytesE : List Nat := [0, 1, 0, 0, 0, 0, 0, 0, 0, 0, 0, 0, 0, 0]

/-- Its decoded value: event sets present, animation resources absent. -/
def asValE : AnimationSet := ⟨1, [], [], 0, none, none, none, some []⟩

/-- Bytes of a minimal version-1 character record. -/
def charBytes1 : List Nat :=
  [0, 0, 0, 1, 0, 1, 0, 0, 0, 0, 2, 0, 0, 0, 3, 0, 0, 0, 4, 0, 0, 0, 0,
   0, 0, 0, 0, 0, 0, 0, 0, 0, 0, 0, 0, 0, 0, 0, 0]

/-- Its decoded value: every gated field absent. -/
def charVal1 : Character :=
  ⟨1, 1, [], 2, 3, 4, [], (), ⟨[], [], none, [], none⟩, 0,
   none, none, none, none, none, none, none, none, none⟩

/-- Bytes of a minimal version-10 character record. -/
def charBytes10 : List Nat :=
  [0, 0, 0, 1, 0, 10, 0, 0, 0, 0, 2, 0, 0, 0, 3, 0, 0, 0, 4, 0, 0, 0, 0,
   0, 0, 0, 0, 0, 0, 0, 0, 0, 0, 0, 5, 0, 0, 0, 0, 0, 0, 0, 0,
   0, 0, 0, 6, 0, 0, 0, 0, 0, 0, 0, 0, 0, 0, 0, 0,
   0, 0, 0, 7, 0, 0, 0, 8, 0, 0, 0, 0, 0, 0, 0, 9, 0, 0, 0, 0, 0]

/-- Its decoded value: every gated field present. -/
def charVal10 : Character :=
  ⟨1, 10, [], 2, 3, 4, [], (), ⟨[], [], some 5, [], some []⟩, 6,
   some 0, some [], some [], some 7, some 8, some [], some 9, some 0, some []⟩

/-- A minimal version-1 character with model id `n`. -/
def mkChar (n : Nat) : Character :=
  ⟨n, 1, [], n, 0, 0, [], (), ⟨[], [], none, [], none⟩, 0,
   none, none, none, none, none, none, none, none, none⟩

/-- A six-character Prime 1 ANCS value. -/
def ancsW : ANCS :=
  ⟨⟨[mkChar 10, mkChar 11, mkChar 12, mkChar 13, mkChar 14, mkChar 15]⟩, asVal1⟩

/-- An asset manager whose catalog answers every id. -/
def amTotal : AssetManager := ⟨Game.PRIME, fun i _ => some [("DEP", i)]⟩

/-- A concrete HINT asset: one hint, popup string id 1, one location with
world 2, area 3 and map-text string id 4. -/
def hintAsset : RawResource :=
  ⟨"HINT",
   [0x00, 0xBA, 0xDB, 0xAD, 0, 0, 0, 1, 0, 0, 0, 1,
    65, 0, 0, 0, 0, 0, 0, 0, 0, 0, 0, 0, 0, 1, 0, 0, 0, 0,
    0, 0, 0, 1,
    0, 0, 0, 2, 0, 0, 0, 3, 0, 0, 0, 0, 0, 0, 0, 4]⟩

/-- Its decoded value. -/
def hintVal : Hint := ⟨1, [⟨[65], 0, 0, 1, 0, [⟨2, 3, 0, 4⟩]⟩]⟩

/-! ### Helper lemmas -/

theorem bparse_bind_eq_some {α β : Type} (p : BParse α) (f : α → BParse β) (d : List Nat)
    (pos : Nat) (r : β × Nat) :
    (p >>= f) d pos = some r ↔ ∃ a pos', p d pos = some (a, pos') ∧ f a d pos' = some r := by
  have hdef : (p >>= f) d pos =
      match p d pos with
      | some (a, pos') => f a d pos'
      | none => none := rfl
  rw [hdef]
  cases hp : p d pos with
  | none => simp
  | some ap =>
    obtain ⟨a, pos'⟩ := ap
    simp only [Option.some.injEq, Prod.mk.injEq]
    constructor
    · intro h
      exact ⟨a, pos', ⟨rfl, rfl⟩, h⟩
    · rintro ⟨a1, p1, ⟨rfl, rfl⟩, h⟩
      exact h

theorem bparse_pure_eq_some {α : Type} (a : α) (d : List Nat) (pos : Nat) (r : α × Nat) :
    (pure a : BParse α) d pos = some r ↔ r = (a, pos) := by
  have hdef : (pure a : BParse α) d pos = some (a, pos) := rfl
  rw [hdef]
  exact ⟨fun h => (Option.some_inj.mp h).symm, fun h => by rw [h]⟩

theorem pIf_isSome_eq {α : Type} {cond : Bool} {p : BParse α} {d : List Nat} {pos : Nat}
    {o : Option α} {pos' : Nat} (h : pIf cond p d pos = some (o, pos')) : o.isSome = cond := by
  unfold pIf at h
  split at h
  case isTrue hc =>
    rw [Option.map_eq_some'] at h
    obtain ⟨⟨a, q⟩, _, hEq⟩ := h
    rw [Prod.mk.injEq] at hEq
    rw [← hEq.1, hc]
    rfl
  case isFalse hc =>
    rw [Option.some_inj, Prod.mk.injEq] at h
    rw [← h.1, Bool.not_eq_true] at *
    rw [hc]
    rfl

theorem GenResult.seq_of_error_none {a : GenResult} (b : Unit → GenResult) (h : a.error = none) :
    a.seq b = ⟨a.yielded ++ (b ()).yielded, (b ()).error⟩ := by
  unfold GenResult.seq
  rw [h]

theorem GenResult.seq_of_error_some {a : GenResult} (b : Unit → GenResult) {e : DecodeError}
    (h : a.error = some e) : a.seq b = a := by
  unfold GenResult.seq
  rw [h]

theorem genFor_of_no_error {α : Type} (xs : List α) (f : α → GenResult)
    (h : ∀ x ∈ xs, (f x).error = none) :
    genFor xs f = ⟨xs.flatMap (fun x => (f x).yielded), none⟩ := by
  induction xs with
  | nil => rfl
  | cons x xs ih =>
    show (f x).seq (fun _ => genFor xs f) = _
    rw [GenResult.seq_of_error_none _ (h x (by simp))]
    rw [ih (fun y hy => h y (by simp [hy]))]
    simp

/-- Dispatch with a registered decoder: the single `except UnableToCheatError`
handler as an equation. -/
theorem get_cheated_of_lookup_some (ext : ExternalModules) (asset : RawResource)
    (am : AssetManager) (is_mlvl : Bool) (f : Decoder)
    (hf : (_FORMATS_TO_CHEAT ext).lookup asset.type = some f) :
    get_cheated_dependencies ext asset am is_mlvl =
      if (f asset am is_mlvl).error = some DecodeError.unableToCheat then
        ⟨(f asset am is_mlvl).yielded ++ _cheat asset.data am is_mlvl, none⟩
      else f asset am is_mlvl := by
  unfold get_cheated_dependencies
  rw [hf]

/-- Dispatch with no registered decoder goes straight to the scanner. -/
theorem get_cheated_of_lookup_none (ext : ExternalModules) (asset : RawResource)
    (am : AssetManager) (is_mlvl : Bool)
    (hf : (_FORMATS_TO_CHEAT ext).lookup asset.type = none) :
    get_cheated_dependencies ext asset am is_mlvl = ⟨_cheat asset.data am is_mlvl, none⟩ := by
  unfold get_cheated_dependencies
  rw [hf]

theorem frme_dep_step_of_none {am : AssetManager} {is_mlvl : Bool} {dep : Nat}
    (hc : am.catalog dep is_mlvl = none) :
    frme_dep_step am is_mlvl dep = ⟨[], some DecodeError.unableToCheat⟩ := by
  simp [frme_dep_step, AssetManager.get_dependencies_for_asset, hc]

theorem frme_dep_step_of_some {am : AssetManager} {is_mlvl : Bool} {dep : Nat}
    {l : List Dependency} (hc : am.catalog dep is_mlvl = some l) :
    frme_dep_step am is_mlvl dep = ⟨l, none⟩ := by
  simp [frme_dep_step, AssetManager.get_dependencies_for_asset, hc]

/-- A FRME declared-dependency list containing any id the catalog cannot
resolve makes the FRME loop end in `UnableToCheatError`. -/
theorem genFor_frme_unknown (am : AssetManager) (is_mlvl : Bool) (deps : List Nat)
    (h : ∃ dep ∈ deps, am.catalog dep is_mlvl = none) :
    (genFor deps (frme_dep_step am is_mlvl)).error = some DecodeError.unableToCheat := by
  induction deps with
  | nil => simp at h
  | cons d ds ih =>
    show ((frme_dep_step am is_mlvl d).seq (fun _ => genFor ds (frme_dep_step am is_mlvl))).error = _
    cases hc : am.catalog d is_mlvl with
    | none =>
      rw [frme_dep_step_of_none hc,
        GenResult.seq_of_error_some _ rfl]
    | some l =>
      rw [frme_dep_step_of_some hc, GenResult.seq_of_error_none _ rfl]
      obtain ⟨x, hx, hxc⟩ := h
      rcases List.mem_cons.mp hx with hxd | hxs
      · rw [hxd] at hxc
        rw [hxc] at hc
        cases hc
      · exact ih ⟨x, hxs, hxc⟩

/-! ### Claims C1, C2, C4: dispatch and fallback -/

/-- C1, counterexample: a registered-type asset (`HINT`) whose magic constant
is wrong makes the top-level decode surface the construct layout error to the
caller instead of falling back to the heuristic scanner. -/
theorem layout_error_reaches_caller_cex :
    should_cheat_asset extTriv hintBad.type = true ∧
    (get_cheated_dependencies extTriv hintBad (amOf Game.PRIME []) false).error
      = some DecodeError.constructError := by decide

/-- C1 (amended): only `UnableToCheatError` is caught by the dispatch layer; a
construct layout error (bad magic, truncated buffer, absurd length) raised by
the registered structured decoder propagates unchanged to the top-level
caller, with no heuristic fallback. -/
theorem layout_error_propagates (ext : ExternalModules) (asset : RawResource)
    (am : AssetManager) (is_mlvl : Bool) (f : Decoder)
    (hf : (_FORMATS_TO_CHEAT ext).lookup asset.type = some f)
    (he : (f asset am is_mlvl).error = some DecodeError.constructError) :
    get_cheated_dependencies ext asset am is_mlvl = f asset am is_mlvl := by
  rw [get_cheated_of_lookup_some ext asset am is_mlvl f hf, if_neg]
  rw [he]
  simp

/-- C1 witness: the amended statement applied at the concrete bad-magic HINT. -/
theorem layout_error_propagates_witness :
    (_FORMATS_TO_CHEAT extTriv).lookup hintBad.type = some hint_dependencies ∧
    (hint_dependencies hintBad (amOf Game.PRIME []) false).error
      = some DecodeError.constructError ∧
    get_cheated_dependencies extTriv hintBad (amOf Game.PRIME []) false
      = hint_dependencies hintBad (amOf Game.PRIME []) false :=
  ⟨rfl, by decide, layout_error_propagates extTriv hintBad (amOf Game.PRIME []) false
    hint_dependencies rfl (by decide)⟩

/-- C2, counterexample: on a FRME asset whose second declared dep is unknown,
the structured decoder yields a record and then signals `UnableToCheatError`;
the top-level decode output is that partial structured yield followed by the
heuristic scanner's records — a merge of the two sources, and a duplicate. -/
theorem partial_merge_cex :
    (frme_dependencies frmeMergeAsset amMerge false).yielded = [("STRG", 100)] ∧
    (frme_dependencies frmeMergeAsset amMerge false).error
      = some DecodeError.unableToCheat ∧
    _cheat frmeMergeAsset.data amMerge false = [("STRG", 100)] ∧
    get_cheated_dependencies extTriv frmeMergeAsset amMerge false
      = ⟨[("STRG", 100), ("STRG", 100)], none⟩ := by decide

/-- C2 (amended): when the registered structured decoder ends in
`UnableToCheatError`, the records it yielded before failing were already
delivered; the dispatch layer then appends the heuristic scanner's records
after them, so the two sources are merged rather than either/or. -/
theorem partial_merge (ext : ExternalModules) (asset : RawResource)
    (am : AssetManager) (is_mlvl : Bool) (f : Decoder)
    (hf : (_FORMATS_TO_CHEAT ext).lookup asset.type = some f)
    (he : (f asset am is_mlvl).error = some DecodeError.unableToCheat) :
    get_cheated_dependencies ext asset am is_mlvl
      = ⟨(f asset am is_mlvl).yielded ++ _cheat asset.data am is_mlvl, none⟩ := by
  rw [get_cheated_of_lookup_some ext asset am is_mlvl f hf, if_pos he]

/-- C2 witness: the amended statement applied at the concrete FRME merge. -/
theorem partial_merge_witness :
    (_FORMATS_TO_CHEAT extTriv).lookup frmeMergeAsset.type = some frme_dependencies ∧
    (frme_dependencies frmeMergeAsset amMerge false).error
      = some DecodeError.unableToCheat ∧
    get_cheated_dependencies extTriv frmeMergeAsset amMerge false
      = ⟨(frme_dependencies frmeMergeAsset amMerge false).yielded
          ++ _cheat frmeMergeAsset.data amMerge false, none⟩ :=
  ⟨rfl, by decide, partial_merge extTriv frmeMergeAsset amMerge false
    frme_dependencies rfl (by decide)⟩

/-- C4, counterexample: a FRME asset declaring the unresolvable id 5 does not
produce a hard failure — the dispatch catches the converted error and falls
back to the heuristic scanner, whose records become the output. -/
theorem frme_no_hard_failure_cex :
    runBParse _frme frmeUnknownAsset.data = some [5] ∧
    amRescue.catalog 5 false = none ∧
    (frme_dependencies frmeUnknownAsset amRescue false).error
      = some DecodeError.unableToCheat ∧
    get_cheated_dependencies extTriv frmeUnknownAsset amRescue false
      = ⟨[("TXTR", 256)], none⟩ := by decide

/-- C4 (amended): a FRME asset whose declared dependency list contains an id
the catalog cannot resolve makes `frme_dependencies` convert the
`UnknownAssetId` into `UnableToCheatError`, which the dispatch layer catches,
falling back to the heuristic scanner — the general fallback rule applies to
FRME too; no hard failure reaches the caller. -/
theorem frme_unknown_falls_back (ext : ExternalModules) (asset : RawResource)
    (am : AssetManager) (is_mlvl : Bool) (deps : List Nat)
    (htype : asset.type = "FRME")
    (hparse : runBParse _frme asset.data = some deps)
    (hunk : ∃ dep ∈ deps, am.catalog dep is_mlvl = none) :
    (frme_dependencies asset am is_mlvl).error = some DecodeError.unableToCheat ∧
    get_cheated_dependencies ext asset am is_mlvl
      = ⟨(frme_dependencies asset am is_mlvl).yielded
          ++ _cheat asset.data am is_mlvl, none⟩ := by
  have herr : (frme_dependencies asset am is_mlvl).error = some DecodeError.unableToCheat := by
    unfold frme_dependencies
    rw [hparse]
    exact genFor_frme_unknown am is_mlvl deps hunk
  refine ⟨herr, ?_⟩
  have hlk : (_FORMATS_TO_CHEAT ext).lookup asset.type = some frme_dependencies := by
    rw [htype]
    rfl
  rw [get_cheated_of_lookup_some ext asset am is_mlvl frme_dependencies hlk, if_pos herr]

/-- C4 witness: the amended statement applied at the concrete FRME asset. -/
theorem frme_unknown_falls_back_witness :
    frmeUnknownAsset.type = "FRME" ∧
    runBParse _frme frmeUnknownAsset.data = some [5] ∧
    amRescue.catalog 5 false = none ∧
    ((frme_dependencies frmeUnknownAsset amRescue false).error
        = some DecodeError.unableToCheat ∧
      get_cheated_dependencies extTriv frmeUnknownAsset amRescue false
        = ⟨(frme_dependencies frmeUnknownAsset amRescue false).yielded
            ++ _cheat frmeUnknownAsset.data amRescue false, none⟩) :=
  ⟨rfl, by decide, by decide,
    frme_unknown_falls_back extTriv frmeUnknownAsset amRescue false [5]
      rfl (by decide) ⟨5, by decide, by decide⟩⟩

/-! ### Claim C3: the heuristic scanner's probe set -/

/-- C3, counterexample: with an 8-byte buffer and 4-byte ids (so `L - W = 4`),
the offset `L - W` itself is never probed, and the valid id sitting exactly
there is missed — the scan is not inclusive of `L - W`. -/
theorem cheat_last_offset_cex :
    streamTail.length = 8 ∧
    amTail.target_game.uses_asset_id_32 = true ∧
    beVal streamTail 4 4 = 7 ∧
    amTail.catalog 7 false = some [("TXTR", 7)] ∧
    4 ∉ cheat_probes streamTail.length 4 ∧
    _cheat streamTail amTail false = [] := by decide

/-- C3 (amended): the heuristic scanner probes exactly the byte offsets `i`
with `i + W < L` — that is, 0 through `L - W - 1`, excluding `L - W` — each
probe interprets the `W` bytes at `i` as a big-endian unsigned integer and
asks the catalog about it, and every probe (needing `i + W ≤ L`) stays within
the buffer. -/
theorem cheat_probe_set (stream : List Nat) (am : AssetManager) (is_mlvl : Bool) (i : Nat) :
    (i ∈ cheat_probes stream.length (if am.target_game.uses_asset_id_32 then 4 else 8) ↔
      i + (if am.target_game.uses_asset_id_32 then 4 else 8) < stream.length) ∧
    (i ∈ cheat_probes stream.length (if am.target_game.uses_asset_id_32 then 4 else 8) →
      i + (if am.target_game.uses_asset_id_32 then 4 else 8) ≤ stream.length) ∧
    _cheat stream am is_mlvl
      = (cheat_probes stream.length (if am.target_game.uses_asset_id_32 then 4 else 8)).flatMap
          (fun j => (am.get_dependencies_for_asset
              (some (beVal stream j (if am.target_game.uses_asset_id_32 then 4 else 8)))
              is_mlvl true).toOption.getD []) := by
  refine ⟨?_, ?_, rfl⟩
  · simp only [cheat_probes, List.mem_range]
    omega
  · simp only [cheat_probes, List.mem_range]
    omega

/-! ### Claim C6: unregistered types go straight to the scanner -/

/-- C6: for an asset whose type tag has no registered structured decoder, the
top-level decode is exactly the heuristic scanner run over the raw bytes
(and it cannot raise). -/
theorem unregistered_runs_scanner (ext : ExternalModules) (asset : RawResource)
    (am : AssetManager) (is_mlvl : Bool)
    (h : should_cheat_asset ext asset.type = false) :
    get_cheated_dependencies ext asset am is_mlvl
      = ⟨_cheat asset.data am is_mlvl, none⟩ := by
  unfold should_cheat_asset at h
  cases hl : (_FORMATS_TO_CHEAT ext).lookup asset.type with
  | none => exact get_cheated_of_lookup_none ext asset am is_mlvl hl
  | some f =>
    rw [hl] at h
    simp at h

/-- C6 witness: a 12-byte asset of the unregistered type tag XXXX whose bytes
4 to 7 hold the one catalog-valid id; the decode equals the scanner's output,
one record found at offset 4. -/
theorem unregistered_runs_scanner_witness :
    should_cheat_asset extTriv unregAsset.type = false ∧
    (get_cheated_dependencies extTriv unregAsset amUnreg false
        = ⟨_cheat unregAsset.data amUnreg false, none⟩) ∧
    _cheat unregAsset.data amUnreg false = [("TXTR", 9)] :=
  ⟨by decide, unregistered_runs_scanner extTriv unregAsset amUnreg false (by decide), by decide⟩

/-! ### Claims C7, C9: AnimationSet conditional blocks -/

/-- C7: in any successfully decoded `AnimationSet`, the additive-animation
block is present iff `table_count >= 2` and the half-transition list is
present iff `table_count >= 3`; below the threshold the field is absent
(`none`), not an empty list. -/
theorem animationSet_table_gates (ext : ExternalModules) (game : Game) (d : List Nat)
    (pos : Nat) (a : AnimationSet) (pos' : Nat)
    (h : parseAnimationSet ext game d pos = some (a, pos')) :
    (a.additive.isSome ↔ 2 ≤ a.table_count) ∧
    (a.half_transitions.isSome ↔ 3 ≤ a.table_count) := by
  simp only [parseAnimationSet, bparse_bind_eq_some, bparse_pure_eq_some, Prod.mk.injEq] at h
  obtain ⟨tc, q1, h1, an, q2, h2, tr, q3, h3, dt, q4, h4, ad, q5, h5,
    ht, q6, h6, ar, q7, h7, es, q8, h8, hc, hpos⟩ := h
  subst hc
  constructor
  · show ad.isSome = true ↔ 2 ≤ tc
    rw [pIf_isSome_eq h5]
    simp
  · show ht.isSome = true ↔ 3 ≤ tc
    rw [pIf_isSome_eq h6]
    simp

/-- C7 witness: the gating applied at concrete `table_count = 1` and
`table_count = 3` decodes. -/
theorem animationSet_table_gates_witness :
    parseAnimationSet extTriv Game.PRIME asBytes1 0 = some (asVal1, 14) ∧
    parseAnimationSet extTriv Game.PRIME asBytes3 0 = some (asVal3, 30) ∧
    ((asVal1.additive.isSome ↔ 2 ≤ asVal1.table_count) ∧
      (asVal1.half_transitions.isSome ↔ 3 ≤ asVal1.table_count)) ∧
    ((asVal3.additive.isSome ↔ 2 ≤ asVal3.table_count) ∧
      (asVal3.half_transitions.isSome ↔ 3 ≤ asVal3.table_count)) :=
  ⟨by decide, by decide,
    animationSet_table_gates extTriv Game.PRIME asBytes1 0 asVal1 14 (by decide),
    animationSet_table_gates extTriv Game.PRIME asBytes3 0 asVal3 30 (by decide)⟩

/-- C9: in any successfully decoded `AnimationSet`, the animation-resource-pair
list is present iff the target game is Prime 1 and the embedded event-set list
is present iff the target game is Prime 2; the two are never both present. -/
theorem animationSet_variant_gates (ext : ExternalModules) (game : Game) (d : List Nat)
    (pos : Nat) (a : AnimationSet) (pos' : Nat)
    (h : parseAnimationSet ext game d pos = some (a, pos')) :
    (a.animation_resources.isSome ↔ game = Game.PRIME) ∧
    (a.event_sets.isSome ↔ game = Game.ECHOES) ∧
    ¬(a.animation_resources.isSome ∧ a.event_sets.isSome) := by
  simp only [parseAnimationSet, bparse_bind_eq_some, bparse_pure_eq_some, Prod.mk.injEq] at h
  obtain ⟨tc, q1, h1, an, q2, h2, tr, q3, h3, dt, q4, h4, ad, q5, h5,
    ht, q6, h6, ar, q7, h7, es, q8, h8, hc, hpos⟩ := h
  subst hc
  have har : ar.isSome = true ↔ game = Game.PRIME := by
    rw [pIf_isSome_eq h7]
    simp [is_prime1]
  have hes : es.isSome = true ↔ game = Game.ECHOES := by
    rw [pIf_isSome_eq h8]
    simp [is_prime2]
  refine ⟨har, hes, ?_⟩
  rintro ⟨hp, he⟩
  have h1g := har.mp hp
  have h2g := hes.mp he
  rw [h1g] at h2g
  cases h2g

/-- C9 witness: the variant gating applied at a concrete Prime 2 decode. -/
theorem animationSet_variant_gates_witness :
    parseAnimationSet extTriv Game.ECHOES asBytesE 0 = some (asValE, 14) ∧
    ((asValE.animation_resources.isSome ↔ Game.ECHOES = Game.PRIME) ∧
      (asValE.event_sets.isSome ↔ Game.ECHOES = Game.ECHOES) ∧
      ¬(asValE.animation_resources.isSome ∧ asValE.event_sets.isSome)) :=
  ⟨by decide, animationSet_variant_gates extTriv Game.ECHOES asBytesE 0 asValE 14 (by decide)⟩

/-! ### Claim C8: Character version gating -/

/-- C8: in any successfully decoded `Character` record, the version-gated
fields obey the thresholds 2, 4, 5, 10: the animation-bounding-box and effect
arrays exist iff `version >= 2` (so a version-below-2 record carries neither,
and `char_dependencies_for` can yield nothing from them), frozen model and
frozen skin iff `version >= 4`, the animation-id map iff `version >= 5`, and
the spatial-primitives id and indexed-bounding-box array iff `version >= 10`;
an absent field is `none`, never a defaulted zero value. -/
theorem character_version_gates (ext : ExternalModules) (game : Game) (d : List Nat)
    (pos : Nat) (c : Character) (pos' : Nat)
    (h : parseCharacter ext game d pos = some (c, pos')) :
    (c.animation_aabb_array.isSome ↔ 2 ≤ c.version) ∧
    (c.effect_array.isSome ↔ 2 ≤ c.version) ∧
    (c.frozen_model.isSome ↔ 4 ≤ c.version) ∧
    (c.frozen_skin.isSome ↔ 4 ≤ c.version) ∧
    (c.animation_id_map.isSome ↔ 5 ≤ c.version) ∧
    (c.spatial_primitives_id.isSome ↔ 10 ≤ c.version) ∧
    (c.indexed_animation_aabb_array.isSome ↔ 10 ≤ c.version) := by
  simp only [parseCharacter, bparse_bind_eq_some, bparse_pure_eq_some, Prod.mk.injEq] at h
  obtain ⟨ci, q1, h1, ver, q2, h2, nm, q3, h3, mi, q4, h4, si, q5, h5, ki, q6, h6,
    an, q7, h7, ps, q8, h8, pr, q9, h9, u1, q10, h10, u2, q11, h11, ab, q12, h12,
    ef, q13, h13, fm, q14, h14, fs, q15, h15, im, q16, h16, sp, q17, h17,
    u3, q18, h18, ix, q19, h19, hc, hpos⟩ := h
  subst hc
  refine ⟨?_, ?_, ?_, ?_, ?_, ?_, ?_⟩
  · show ab.isSome = true ↔ 2 ≤ ver
    rw [pIf_isSome_eq h12]
    simp
  · show ef.isSome = true ↔ 2 ≤ ver
    rw [pIf_isSome_eq h13]
    simp
  · show fm.isSome = true ↔ 4 ≤ ver
    rw [pIf_isSome_eq h14]
    simp
  · show fs.isSome = true ↔ 4 ≤ ver
    rw [pIf_isSome_eq h15]
    simp
  · show im.isSome = true ↔ 5 ≤ ver
    rw [pIf_isSome_eq h16]
    simp
  · show sp.isSome = true ↔ 10 ≤ ver
    rw [pIf_isSome_eq h17]
    simp
  · show ix.isSome = true ↔ 10 ≤ ver
    rw [pIf_isSome_eq h19]
    simp

/-- C8 witness: the gating applied at concrete version-1 and version-10
decodes. -/
theorem character_version_gates_witness :
    parseCharacter extTriv Game.PRIME charBytes1 0 = some (charVal1, 39) ∧
    parseCharacter extTriv Game.PRIME charBytes10 0 = some (charVal10, 80) ∧
    ((charVal1.animation_aabb_array.isSome ↔ 2 ≤ charVal1.version) ∧
      (charVal1.effect_array.isSome ↔ 2 ≤ charVal1.version) ∧
      (charVal1.frozen_model.isSome ↔ 4 ≤ charVal1.version) ∧
      (charVal1.frozen_skin.isSome ↔ 4 ≤ charVal1.version) ∧
      (charVal1.animation_id_map.isSome ↔ 5 ≤ charVal1.version) ∧
      (charVal1.spatial_primitives_id.isSome ↔ 10 ≤ charVal1.version) ∧
      (charVal1.indexed_animation_aabb_array.isSome ↔ 10 ≤ charVal1.version)) ∧
    ((charVal10.animation_aabb_array.isSome ↔ 2 ≤ charVal10.version) ∧
      (charVal10.effect_array.isSome ↔ 2 ≤ charVal10.version) ∧
      (charVal10.frozen_model.isSome ↔ 4 ≤ charVal10.version) ∧
      (charVal10.frozen_skin.isSome ↔ 4 ≤ charVal10.version) ∧
      (charVal10.animation_id_map.isSome ↔ 5 ≤ charVal10.version) ∧
      (charVal10.spatial_primitives_id.isSome ↔ 10 ≤ charVal10.version) ∧
      (charVal10.indexed_animation_aabb_array.isSome ↔ 10 ≤ charVal10.version)) :=
  ⟨by decide, by decide,
    character_version_gates extTriv Game.PRIME charBytes1 0 charVal1 39 (by decide),
    character_version_gates extTriv Game.PRIME charBytes10 0 charVal10 80 (by decide)⟩

/-! ### Claim C5: player-actor restriction -/

theorem genFor_congr {α : Type} (xs : List α) {f g : α → GenResult}
    (h : ∀ x ∈ xs, f x = g x) : genFor xs f = genFor xs g := by
  induction xs with
  | nil => rfl
  | cons x xs ih =>
    show (f x).seq (fun _ => genFor xs f) = (g x).seq (fun _ => genFor xs g)
    rw [h x (by simp), ih (fun y hy => h y (by simp [hy]))]

theorem non_char_congr (ext : ExternalModules) (am : AssetManager) {o o' : ANCS}
    (h : o'.animation_set = o.animation_set) :
    non_char_dependencies_for ext o' am = non_char_dependencies_for ext o am := by
  unfold non_char_dependencies_for
  rw [h]

/-- C5: with the player-actor flag set, the ANCS walk uses the single
designated character index — 5 for Prime 1, 3 for any other game — and the
shared animation-set data: the output is exactly that character's
dependencies followed by the non-per-character ones, and it does not depend
on any of the other characters (replacing them leaves the output unchanged). -/
theorem player_actor_restriction (ext : ExternalModules) (obj : ANCS) (am : AssetManager)
    (c : Character)
    (hc : obj.character_set.characters.get? (empty_suit_index am.target_game) = some c) :
    (empty_suit_index Game.PRIME = 5 ∧ ∀ g : Game, g ≠ Game.PRIME → empty_suit_index g = 3) ∧
    mlvl_dependencies_for ext obj am true
      = (char_dependencies_for c am).seq (fun _ => non_char_dependencies_for ext obj am) ∧
    ∀ obj' : ANCS,
      obj'.character_set.characters.get? (empty_suit_index am.target_game) = some c →
      obj'.animation_set = obj.animation_set →
      mlvl_dependencies_for ext obj' am true = mlvl_dependencies_for ext obj am true := by
  have hmain : ∀ o : ANCS,
      o.character_set.characters.get? (empty_suit_index am.target_game) = some c →
      mlvl_dependencies_for ext o am true
        = (char_dependencies_for c am).seq (fun _ => non_char_dependencies_for ext o am) := by
    intro o ho
    unfold mlvl_dependencies_for
    rw [ho]
    simp
  refine ⟨⟨rfl, ?_⟩, hmain obj hc, ?_⟩
  · intro g hg
    unfold empty_suit_index
    rw [if_neg hg]
  · intro obj' h1 h2
    rw [hmain obj' h1, hmain obj hc, non_char_congr ext am h2]

/-- C5 witness: on the six-character Prime 1 set, the player-actor walk is
character index 5 plus the shared data. -/
theorem player_actor_restriction_witness :
    ancsW.character_set.characters.get? (empty_suit_index amTotal.target_game)
      = some (mkChar 15) ∧
    mlvl_dependencies_for extTriv ancsW amTotal true
      = (char_dependencies_for (mkChar 15) amTotal).seq
          (fun _ => non_char_dependencies_for extTriv ancsW amTotal) :=
  ⟨by decide,
    (player_actor_restriction extTriv ancsW amTotal (mkChar 15) (by decide)).2.1⟩

/-! ### Claim C10: the HINT decoder and the container-context flag -/

theorem ofExcept_deps_of_isSome (am : AssetManager) (i : Nat) (b : Bool)
    (hi : (am.catalog i b).isSome) :
    GenResult.ofExcept (am.get_dependencies_for_asset (some i) b false)
      = ⟨(am.catalog i b).getD [], none⟩ := by
  cases hc : am.catalog i b with
  | none =>
    rw [hc] at hi
    simp at hi
  | some l =>
    simp [AssetManager.get_dependencies_for_asset, GenResult.ofExcept, hc]

/-- The yielded sequence of `hint_dependencies`, for either flag value, over a
total catalog. -/
theorem hint_yield_eq (asset : RawResource) (am : AssetManager) (b : Bool) (h : Hint)
    (hparse : runBParse _hint asset.data = some h)
    (htotal : ∀ i b', (am.catalog i b').isSome) :
    (hint_dependencies asset am b).yielded
      = h.hints.flatMap (fun hh =>
          (am.catalog hh.popup_strg b).getD []
            ++ hh.locations.flatMap (fun loc =>
              (am.catalog loc.map_text_strg b).getD []
                ++ (if b then [] else [("MLVL", loc.mlvl), ("MREA", loc.mrea)]))) := by
  have hloc : ∀ loc : HintLocation,
      ((GenResult.ofExcept (am.get_dependencies_for_asset (some loc.map_text_strg) b false)).seq
        (fun _ => if b then ⟨[], none⟩ else ⟨[("MLVL", loc.mlvl), ("MREA", loc.mrea)], none⟩))
        = ⟨(am.catalog loc.map_text_strg b).getD []
            ++ (if b then [] else [("MLVL", loc.mlvl), ("MREA", loc.mrea)]), none⟩ := by
    intro loc
    rw [ofExcept_deps_of_isSome am _ b (htotal _ b)]
    rw [GenResult.seq_of_error_none _ rfl]
    cases b <;> rfl
  have hstep : ∀ hh : HintEntry,
      ((GenResult.ofExcept (am.get_dependencies_for_asset (some hh.popup_strg) b false)).seq
        (fun _ => genFor hh.locations (fun loc =>
          (GenResult.ofExcept
              (am.get_dependencies_for_asset (some loc.map_text_strg) b false)).seq
            (fun _ =>
              if b then ⟨[], none⟩
              else ⟨[("MLVL", loc.mlvl), ("MREA", loc.mrea)], none⟩))))
        = ⟨(am.catalog hh.popup_strg b).getD []
            ++ hh.locations.flatMap (fun loc =>
              (am.catalog loc.map_text_strg b).getD []
                ++ (if b then [] else [("MLVL", loc.mlvl), ("MREA", loc.mrea)])), none⟩ := by
    intro hh
    rw [ofExcept_deps_of_isSome am _ b (htotal _ b)]
    rw [genFor_congr hh.locations (fun loc _ => hloc loc)]
    rw [genFor_of_no_error _ _ (fun loc _ => rfl)]
    rw [GenResult.seq_of_error_none _ rfl]
  unfold hint_dependencies
  rw [hparse]
  show (genFor h.hints _).yielded = _
  rw [genFor_congr h.hints (fun hh _ => hstep hh)]
  rw [genFor_of_no_error _ _ (fun hh _ => rfl)]

/-- C10: for a HINT asset over a total catalog, the popup-string and
map-text-string dependencies of every hint are yielded for both values of the
container-context flag, but the raw `("MLVL", mlvl)` and `("MREA", mrea)`
records of each hint location are yielded only when `is_mlvl` is false — the
flag changes which records appear in the output. -/
theorem hint_flag_controls_location_pairs (asset : RawResource) (am : AssetManager) (h : Hint)
    (hparse : runBParse _hint asset.data = some h)
    (htotal : ∀ i b', (am.catalog i b').isSome) :
    (hint_dependencies asset am true).yielded
      = h.hints.flatMap (fun hh =>
          (am.catalog hh.popup_strg true).getD []
            ++ hh.locations.flatMap (fun loc => (am.catalog loc.map_text_strg true).getD [])) ∧
    (hint_dependencies asset am false).yielded
      = h.hints.flatMap (fun hh =>
          (am.catalog hh.popup_strg false).getD []
            ++ hh.locations.flatMap (fun loc =>
              (am.catalog loc.map_text_strg false).getD []
                ++ [("MLVL", loc.mlvl), ("MREA", loc.mrea)])) := by
  constructor
  · rw [hint_yield_eq asset am true h hparse htotal]
    simp
  · rw [hint_yield_eq asset am false h hparse htotal]
    simp

/-- C10 witness: at the concrete HINT asset, the flag drops exactly the
`MLVL`/`MREA` pair while the string dependencies stay. -/
theorem hint_flag_witness :
    runBParse _hint hintAsset.data = some hintVal ∧
    (hint_dependencies hintAsset amTotal true).yielded = [("DEP", 1), ("DEP", 4)] ∧
    (hint_dependencies hintAsset amTotal false).yielded
      = [("DEP", 1), ("DEP", 4), ("MLVL", 2), ("MREA", 3)] :=
  ⟨by decide,
    by
      rw [(hint_flag_controls_location_pairs hintAsset amTotal hintVal (by decide)
        (fun i b' => rfl)).1]
      decide,
    by
      rw [(hint_flag_controls_location_pairs hintAsset amTotal hintVal (by decide)
        (fun i b' => rfl)).2]
      decide⟩

/-- C3 witness: the probe-set characterization applied at the concrete 8-byte
buffer with 4-byte ids, at offset 3 (the last offset actually probed). -/
theorem cheat_probe_set_witness :
    (3 ∈ cheat_probes streamTail.length 4 ↔ 3 + 4 < streamTail.length) ∧
    (3 ∈ cheat_probes streamTail.length 4 → 3 + 4 ≤ streamTail.length) ∧
    _cheat streamTail amTail false
      = (cheat_probes streamTail.length 4).flatMap (fun j =>
          (amTail.get_dependencies_for_asset (some (beVal streamTail j 4))
              false true).toOption.getD []) :=
  cheat_probe_set streamTail amTail false 3
